import Mathlib

/-!
Shallow embedding of `gdsctools/readers.py` (classes `Reader`, `IC50`,
`GenomicFeatures`) and proofs about its behaviour.

Dataframes are modelled as an explicit index column, a list of column
labels and a list of rows; cells are strings, rationals, or missing
values (`NaN`). File I/O (`Reader.to_csv` / `pd.read_csv`) is modelled
structurally: a CSV file is a header line plus a list of body rows.
-/

set_option autoImplicit false

namespace GDSCTools

/-- Cell values of a dataframe: strings, numbers, or a missing value
(pandas `NaN`).  Numeric cells are modelled as integers: the numeric
payloads enter the verified claims only through sums, comparisons with
zero and null counting, for which integer-valued cells are fully
representative. -/
inductive Cell where
  | str : String → Cell
  | num : Int → Cell
  | na : Cell
deriving DecidableEq, Repr

instance : Inhabited Cell := ⟨Cell.na⟩

/-- Character-list prefix test, used to model Python's `str.startswith`. -/
def isPrefixL : List Char → List Char → Bool
  | [], _ => true
  | _ :: _, [] => false
  | a :: as, b :: bs => a == b && isPrefixL as bs

/-- Python `s.startswith(p)` over the characters of the strings. -/
def startsW (s p : String) : Bool := isPrefixL p.data s.data

/-- Shallow embedding of a pandas dataframe: the index (with its optional
name), the column labels, and the rows of cells.  A well-formed frame has
`index.length = rows.length` and every row of length `columns.length`. -/
structure DataFrame where
  indexName : Option String
  index : List Cell
  columns : List String
  rows : List (List Cell)
deriving DecidableEq, Repr

instance : Inhabited DataFrame := ⟨⟨none, [], [], []⟩⟩

/-- Label-based access to the cell of row `r` in column `c` of `df`
(pandas `row[c]`).  A missing label yields the `na` placeholder; the
development only uses this at labels present in the frame. -/
def DataFrame.cellAt (df : DataFrame) (r : List Cell) (c : String) : Cell :=
  r.getD (df.columns.indexOf c) Cell.na

/-- Values of column `c` (pandas `df[c]`). -/
def DataFrame.colValues (df : DataFrame) (c : String) : List Cell :=
  df.rows.map (fun r => df.cellAt r c)

/-- Projection of `df` onto the listed columns, in the given order
(pandas `df[cols]` after the key check has succeeded). -/
def DataFrame.projCols (df : DataFrame) (cols : List String) : DataFrame :=
  { df with columns := cols, rows := df.rows.map (fun r => cols.map (df.cellAt r)) }

/-- Pandas `df[cols]`: raises `KeyError` (here: `none`) when a requested
label is absent. -/
def DataFrame.selectCols (df : DataFrame) (cols : List String) : Option DataFrame :=
  if cols.all (fun c => df.columns.contains c) then some (df.projCols cols) else none

/-- Pandas `df.set_index(c, inplace=True)`: the column `c` becomes the
index (keeping its name) and is removed from the data columns. -/
def DataFrame.setIndex (df : DataFrame) (c : String) : Option DataFrame :=
  if df.columns.contains c then
    some { indexName := some c,
           index := df.rows.map (fun r => df.cellAt r c),
           columns := df.columns.eraseIdx (df.columns.indexOf c),
           rows := df.rows.map (fun r => r.eraseIdx (df.columns.indexOf c)) }
  else none

/-- Pandas boolean-mask row filtering `df[mask]` where the mask is computed
row-wise by `p`: the surviving index entries and rows are those whose row
satisfies `p`, in order. -/
def DataFrame.filterRows (df : DataFrame) (p : List Cell → Bool) : DataFrame :=
  { df with
    index := ((df.index.zip df.rows).filter (fun q => p q.2)).map Prod.fst,
    rows := ((df.index.zip df.rows).filter (fun q => p q.2)).map Prod.snd }

/-- Structural model of a delimiter-separated text file: the header line
and the body rows. -/
structure CsvFile where
  header : List String
  body : List (List Cell)
deriving DecidableEq, Repr

/-- Pandas `pd.read_csv`: columns come from the header line and the frame
gets the default integer range index. -/
def read_csv (f : CsvFile) : DataFrame :=
  { indexName := none,
    index := (List.range f.body.length).map (fun i => Cell.num (i : Int)),
    columns := f.header,
    rows := f.body }

/-- Source `Reader.to_csv` (via `df.to_csv`): the header holds the index
name followed by the column labels, and each body row holds the index
entry followed by the row's cells. -/
def Reader.to_csv (df : DataFrame) : CsvFile :=
  { header := df.indexName.getD "" :: df.columns,
    body := (df.index.zip df.rows).map (fun q => q.1 :: q.2) }

/-- Python-level type of the argument accepted by `IC50.__init__`:
a filename (whose content we model directly), an `IC50` instance, a
dataframe, or anything else (which raises `TypeError`). -/
inductive IC50Input where
  | file : CsvFile → IC50Input
  | ic50 : DataFrame → IC50Input
  | dataframe : DataFrame → IC50Input
  | other : IC50Input

namespace IC50

/-- File branch of `IC50.__init__`: read the file, keep `COSMIC ID`
together with every column whose name starts with `Drug`, and set
`COSMIC ID` as index.  A missing `COSMIC ID` column raises `KeyError`. -/
def fromFile (f : CsvFile) : Option DataFrame :=
  let rawdf := read_csv f
  let columns := "COSMIC ID" :: rawdf.columns.filter (fun x => startsW x "Drug")
  match rawdf.selectCols columns with
  | some d => d.setIndex "COSMIC ID"
  | none => none

/-- Source `IC50.__init__`: dispatch on the input's type; an `IC50`
instance or a dataframe is copied, anything else raises `TypeError`. -/
def fromInput : IC50Input → Option DataFrame
  | .file f => fromFile f
  | .ic50 d => some d
  | .dataframe d => some d
  | .other => none

/-- Source `IC50.drugIds`: the list of column names of `df`. -/
def drugIds (df : DataFrame) : List String := df.columns

/-- Number of drugs printed by `IC50.__str__`: `len(self.drugIds)`. -/
def nbDrugs (df : DataFrame) : Nat := (drugIds df).length

/-- Number of cell lines printed by `IC50.__str__`: `len(self.df)`. -/
def nbCellLines (df : DataFrame) : Nat := df.rows.length

/-- Per-column null counts, `self.df.isnull().sum()`. -/
def isnullColSums (df : DataFrame) : List Nat :=
  (List.range df.columns.length).map
    (fun i => (df.rows.filter (fun r => r.getD i Cell.na == Cell.na)).length)

/-- Total null count `Nna = self.df.isnull().sum().sum()`. -/
def isnullTotal (df : DataFrame) : Nat := (isnullColSums df).sum

/-- NA percentage printed by `IC50.__str__`: `Nna / float(N)` with
`N = len(self.drugIds) * len(self.df)`. -/
def naPercentage (df : DataFrame) : Rat :=
  (isnullTotal df : Rat) / ((nbDrugs df * df.rows.length : Nat) : Rat)

end IC50

/-- Claim-side count of null cells: cells are counted row by row. -/
def DataFrame.nullCellCount (df : DataFrame) : Nat :=
  (df.rows.map (fun r => r.countP (fun x => x == Cell.na))).sum

/-- Compulsory column `self._col_tissue`. -/
def col_tissue : String := "Tissue Factor Value"

/-- Compulsory column `self._col_sample`. -/
def col_sample : String := "Sample Name"

/-- Compulsory column `self._col_msi`. -/
def col_msi : String := "MS-instability Factor Value"

/-- Python-level type of the argument accepted by `GenomicFeatures.__init__`.
The non-string branch is duck-typed (`try: filename.df.copy() except:
self.df = filename`), so besides filenames, `Reader` instances and
dataframes it also accepts any other object exposing a dataframe-valued
`df` attribute (`duck`); anything else ends up raising when the
constructor touches `self.df.columns`. -/
inductive GFInput where
  | file : CsvFile → GFInput
  | reader : DataFrame → GFInput
  | duck : DataFrame → GFInput
  | dataframe : DataFrame → GFInput
  | other : GFInput

/-- Membership of one cell in a list of tissue names, modelling
`Series.isin(tissues)` pointwise: a string cell matches when it occurs in
the list; numeric and missing cells match nothing. -/
def Cell.isinStr : Cell → List String → Bool
  | .str s, ts => ts.contains s
  | _, _ => false

/-- Numeric value of a cell for pandas' skip-NaN column sums
(`view.sum()`): missing values contribute nothing.  String-valued feature
columns are outside this numeric model (their pandas sum behaviour is
version-dependent), so the theorems below restrict feature columns to
numeric contents. -/
def Cell.toInt : Cell → Int
  | .num q => q
  | _ => 0

/-- Argument of `drop_tissue_in`/`keep_tissue_in`: a single tissue name or
a list of them, normalised by `easydev.to_list`. -/
inductive TissueArg where
  | one : String → TissueArg
  | many : List String → TissueArg

/-- Source `easydev.to_list` as used on tissue arguments. -/
def TissueArg.toList : TissueArg → List String
  | .one s => [s]
  | .many l => l

namespace GenomicFeatures

/-- Column sum of `c` (skipping missing values), as used by `_cleanup`. -/
def colSum (df : DataFrame) (c : String) : Int :=
  ((df.colValues c).map Cell.toInt).sum

/-- Columns of the view built by `_cleanup`: everything but the tissue,
MSI and sample columns (`to_ignore`). -/
def viewCols (df : DataFrame) : List String :=
  df.columns.filter (fun x => !([col_tissue, col_msi, col_sample].contains x))

/-- Labels dropped by `_cleanup`: view columns whose sum is `<= 0`. -/
def todrop (df : DataFrame) : List String :=
  (viewCols df).filter (fun c => decide (colSum df c ≤ 0))

/-- Source `GenomicFeatures._cleanup` with the default
`required_features=0`: `self.df.drop(todrop, axis=1)` keeps the columns
whose label is not in `todrop`. -/
def cleanup (df : DataFrame) : DataFrame :=
  df.projCols (df.columns.filter (fun c => !((todrop df).contains c)))

/-- Shared tail of `GenomicFeatures.__init__`: remove every column whose
name starts with `Drug_`, then assert that the tissue, sample and MSI
columns are present. -/
def finalize (df0 : DataFrame) : Option DataFrame :=
  let df := df0.projCols (df0.columns.filter (fun x => !(startsW x "Drug_")))
  if df.columns.contains col_tissue && df.columns.contains col_sample
      && df.columns.contains col_msi then
    some df
  else none

/-- Source `GenomicFeatures.__init__`: a filename is read with
`pd.read_csv`, `COSMIC ID` is asserted and made the index; any non-string
input with a `df` attribute is copied, a dataframe is taken as is; then
`Drug_` columns are removed and the compulsory columns asserted. -/
def fromInput : GFInput → Option DataFrame
  | .file f =>
      let df := read_csv f
      if df.columns.contains "COSMIC ID" then
        match df.setIndex "COSMIC ID" with
        | some d => finalize d
        | none => none
      else none
  | .reader d => finalize d
  | .duck d => finalize d
  | .dataframe d => finalize d
  | .other => none

/-- Source `GenomicFeatures.drop_tissue_in`: keep the rows whose tissue is
not in the list, then `_cleanup`. -/
def drop_tissue_in (df : DataFrame) (ts : TissueArg) : DataFrame :=
  let tissues := ts.toList
  cleanup (df.filterRows (fun r => !(df.cellAt r col_tissue).isinStr tissues))

/-- Source `GenomicFeatures.keep_tissue_in`: keep the rows whose tissue is
in the list, then `_cleanup`. -/
def keep_tissue_in (df : DataFrame) (ts : TissueArg) : DataFrame :=
  let tissues := ts.toList
  cleanup (df.filterRows (fun r => (df.cellAt r col_tissue).isinStr tissues))

end GenomicFeatures

/-- Heap of dataframe objects for the aliasing claims: each live dataframe
occupies one cell and Python variables hold references into it. -/
abbrev Store := List DataFrame

/-- Dereference `r` (reading `obj.df`). -/
def Store.read (s : Store) (r : Nat) : DataFrame := s.getD r default

/-- In-place mutation of the dataframe referenced by `r`. -/
def Store.write (s : Store) (r : Nat) (d : DataFrame) : Store := s.set r d

/-- Allocation of a fresh dataframe object. -/
def Store.alloc (s : Store) (d : DataFrame) : Store × Nat := (s ++ [d], s.length)

/-- Branches `self.df = filename.df.copy()` (input is an `IC50` instance)
and `self.df = filename.copy()` (input is a dataframe) of `IC50.__init__`:
`.copy()` allocates a fresh dataframe with the same contents as the
source referenced by `src`. -/
def IC50.initFromRef (s : Store) (src : Nat) : Store × Nat :=
  s.alloc (s.read src)

/-- Nonnegative-numeric test on a cell, used to phrase the hypothesis of
the zero-column-pruning claim decidably. -/
def Cell.isNonnegNum : Cell → Bool
  | .num q => decide (0 ≤ q)
  | _ => false

/-- Small genomic-features frame used by the concrete witnesses. -/
def gfEx : DataFrame :=
  ⟨some "COSMIC ID", [Cell.num 111, Cell.num 222],
    [col_tissue, col_sample, col_msi, "BRAF_mut"],
    [[Cell.str "lung", Cell.str "a", Cell.num 0, Cell.num 1],
     [Cell.str "skin", Cell.str "b", Cell.num 1, Cell.num 0]]⟩

/-- Small IC50 frame used by the concrete witnesses. -/
def icEx : DataFrame :=
  ⟨some "COSMIC ID", [Cell.num 111, Cell.num 222], ["Drug_1_IC50", "Drug_20_IC50"],
    [[Cell.num 5, Cell.na], [Cell.na, Cell.num 7]]⟩

/-- Small input file used by the concrete witnesses: it has one column
starting with `Drug` that does not match the `Drug_XX_IC50` pattern. -/
def fileEx : CsvFile :=
  ⟨["COSMIC ID", "Drug_1_IC50", "Tissue Factor Value", "Drugged"],
    [[Cell.num 111, Cell.num 5, Cell.str "lung", Cell.num 3]]⟩

/-- Small genomic-features input file used by the concrete witnesses. -/
def gfFileEx : CsvFile :=
  ⟨["COSMIC ID", col_tissue, col_sample, col_msi, "Drug_1_IC50", "BRAF_mut"],
    [[Cell.num 1, Cell.str "lung", Cell.str "a", Cell.num 0, Cell.num 9, Cell.num 1]]⟩

/-- Input file lacking the tissue column, used by a concrete witness. -/
def noTissueFile : CsvFile :=
  ⟨["COSMIC ID", col_sample, col_msi], [[Cell.num 1, Cell.str "a", Cell.num 0]]⟩

section ListLemmas

variable {α β : Type} [DecidableEq α]

lemma getD_map_indexOf (f : α → β) (d : β) (cols : List α) (c : α) (hc : c ∈ cols) :
    (cols.map f).getD (cols.indexOf c) d = f c := by
  have hlt : cols.indexOf c < cols.length := List.indexOf_lt_length.mpr hc
  rw [List.getD_eq_getElem _ _ (by simpa using hlt), List.getElem_map]
  congr 1
  exact List.getElem_indexOf hlt

lemma map_getD_indexOf (d : β) :
    ∀ (cols : List α) (r : List β), cols.Nodup → r.length = cols.length →
      cols.map (fun c => r.getD (cols.indexOf c) d) = r
  | [], [], _, _ => rfl
  | [], _ :: _, _, h => by simp at h
  | _ :: _, [], _, h => by simp at h
  | c :: cols, x :: r, hnd, h => by
      obtain ⟨hc, hnd'⟩ := List.nodup_cons.mp hnd
      simp only [List.map_cons, List.indexOf_cons_self, List.getD_cons_zero,
        List.cons.injEq, true_and]
      calc cols.map (fun e => (x :: r).getD ((c :: cols).indexOf e) d)
          = cols.map (fun e => r.getD (cols.indexOf e) d) := by
            refine List.map_congr_left (fun e he => ?_)
            rw [List.indexOf_cons_ne _ (fun hce => hc (by rw [hce]; exact he))]
            simp
        _ = r := map_getD_indexOf d cols r hnd' (by simpa using h)

lemma exists_pos_of_sum_pos (l : List Int) (h : 0 < l.sum) : ∃ x ∈ l, 0 < x := by
  have hx := List.exists_lt_of_sum_lt (l := l) (fun _ => (0 : Int)) id ?_
  · simpa using hx
  · simpa using h

omit [DecidableEq α] in
lemma sum_map_add (l : List α) (f g : α → Nat) :
    (l.map (fun x => f x + g x)).sum = (l.map f).sum + (l.map g).sum := by
  induction l with
  | nil => rfl
  | cons a l ih => simp only [List.map_cons, List.sum_cons, ih]; omega

omit [DecidableEq α] in
lemma sum_range_getD_countP {β : Type} (p : β → Bool) (d : β) :
    ∀ r : List β,
      ((List.range r.length).map (fun i => if p (r.getD i d) then 1 else 0)).sum = r.countP p
  | [] => rfl
  | x :: r => by
      rw [List.length_cons, List.range_succ_eq_map, List.map_cons, List.sum_cons, List.map_map]
      have he : ((fun i => if p ((x :: r).getD i d) then 1 else 0) ∘ Nat.succ)
          = (fun i => if p (r.getD i d) then 1 else 0) := by
        funext i
        simp [List.getD_cons_succ]
      rw [he, List.getD_cons_zero, sum_range_getD_countP p d r, List.countP_cons]
      omega

omit [DecidableEq α] in
lemma mem_eraseIdx_of_ne :
    ∀ (l : List α) (i : Nat) (a : α), a ∈ l → l.getD i a ≠ a → a ∈ l.eraseIdx i
  | [], _, a => fun h _ => absurd h (List.not_mem_nil a)
  | b :: t, 0, a => fun h hne => by
      simp only [List.getD_cons_zero] at hne
      simpa [List.eraseIdx] using (List.mem_cons.mp h).resolve_left (fun e => hne e.symm)
  | b :: t, i + 1, a => fun h hne => by
      simp only [List.getD_cons_succ] at hne
      rcases List.mem_cons.mp h with e | ht
      · simp [List.eraseIdx, e]
      · simpa [List.eraseIdx] using Or.inr (mem_eraseIdx_of_ne t i a ht hne)

end ListLemmas

section FrameLemmas

lemma projCols_indexName (df : DataFrame) (cols : List String) :
    (df.projCols cols).indexName = df.indexName := rfl

lemma projCols_index (df : DataFrame) (cols : List String) :
    (df.projCols cols).index = df.index := rfl

lemma projCols_columns (df : DataFrame) (cols : List String) :
    (df.projCols cols).columns = cols := rfl

lemma cellAt_projCols (df : DataFrame) (cols : List String) (r : List Cell) (c : String)
    (hc : c ∈ cols) :
    (df.projCols cols).cellAt (cols.map (df.cellAt r)) c = df.cellAt r c := by
  show (cols.map (df.cellAt r)).getD (cols.indexOf c) Cell.na = _
  exact getD_map_indexOf (df.cellAt r) Cell.na cols c hc

lemma colValues_projCols (df : DataFrame) (cols : List String) (c : String) (hc : c ∈ cols) :
    (df.projCols cols).colValues c = df.colValues c := by
  show (df.rows.map fun r => cols.map (df.cellAt r)).map
      (fun r' => (df.projCols cols).cellAt r' c) = df.rows.map (fun r => df.cellAt r c)
  rw [List.map_map]
  exact List.map_congr_left (fun r _ => cellAt_projCols df cols r c hc)

lemma projCols_self (df : DataFrame) (hnd : df.columns.Nodup)
    (hrows : ∀ r ∈ df.rows, r.length = df.columns.length) :
    df.projCols df.columns = df := by
  have hrow : ∀ r ∈ df.rows, df.columns.map (df.cellAt r) = r := fun r hr =>
    map_getD_indexOf Cell.na df.columns r hnd (hrows r hr)
  show DataFrame.mk df.indexName df.index df.columns
      (df.rows.map fun r => df.columns.map (df.cellAt r)) = df
  have : df.rows.map (fun r => df.columns.map (df.cellAt r)) = df.rows :=
    (List.map_congr_left (fun r hr => hrow r hr)).trans (List.map_id df.rows)
  rw [this]

lemma filterRows_indexName (df : DataFrame) (p : List Cell → Bool) :
    (df.filterRows p).indexName = df.indexName := rfl

lemma filterRows_columns (df : DataFrame) (p : List Cell → Bool) :
    (df.filterRows p).columns = df.columns := rfl

lemma filterRows_index (df : DataFrame) (p : List Cell → Bool) :
    (df.filterRows p).index
      = ((df.index.zip df.rows).filter (fun q => p q.2)).map Prod.fst := rfl

lemma filterRows_rows (df : DataFrame) (p : List Cell → Bool) :
    (df.filterRows p).rows
      = ((df.index.zip df.rows).filter (fun q => p q.2)).map Prod.snd := rfl

lemma cellAt_filterRows (df : DataFrame) (p : List Cell → Bool) (r : List Cell) (c : String) :
    (df.filterRows p).cellAt r c = df.cellAt r c := rfl

lemma colValues_filterRows (df : DataFrame) (p : List Cell → Bool) (c : String) :
    (df.filterRows p).colValues c
      = ((df.index.zip df.rows).filter (fun q => p q.2)).map (fun q => df.cellAt q.2 c) := by
  unfold DataFrame.colValues
  rw [filterRows_rows, List.map_map]
  rfl

lemma read_csv_columns (f : CsvFile) : (read_csv f).columns = f.header := rfl

lemma read_csv_rows (f : CsvFile) : (read_csv f).rows = f.body := rfl

lemma selectCols_self (df : DataFrame) (hnd : df.columns.Nodup)
    (hrows : ∀ r ∈ df.rows, r.length = df.columns.length) :
    df.selectCols df.columns = some df := by
  unfold DataFrame.selectCols
  rw [if_pos (List.all_eq_true.mpr (fun c hc => by simpa using hc)),
    projCols_self df hnd hrows]

lemma setIndex_of_mem (df : DataFrame) (c : String) (h : c ∈ df.columns) :
    df.setIndex c = some ⟨some c, df.rows.map (fun r => df.cellAt r c),
      df.columns.erase c, df.rows.map (fun r => r.eraseIdx (df.columns.indexOf c))⟩ := by
  unfold DataFrame.setIndex
  rw [if_pos (by simpa using h)]
  simp

lemma setIndex_read_to_csv (df : DataFrame) (hn : df.indexName = some "COSMIC ID")
    (hl : df.index.length = df.rows.length) :
    (read_csv (Reader.to_csv df)).setIndex "COSMIC ID"
      = some ⟨some "COSMIC ID", df.index, df.columns, df.rows⟩ := by
  obtain ⟨iN, ix, cols, rows⟩ := df
  dsimp only at hn hl ⊢
  subst hn
  have hfst : ((ix.zip rows).map (fun q => q.1 :: q.2)).map
      (fun r => r.getD 0 Cell.na) = ix := by
    rw [List.map_map]
    have he : ((fun r : List Cell => r.getD 0 Cell.na) ∘ fun q : Cell × List Cell => q.1 :: q.2)
        = Prod.fst := by funext q; rfl
    rw [he, List.map_fst_zip _ _ (le_of_eq hl)]
  have hsnd : ((ix.zip rows).map (fun q => q.1 :: q.2)).map
      (fun r => r.eraseIdx 0) = rows := by
    rw [List.map_map]
    have he : ((fun r : List Cell => r.eraseIdx 0) ∘ fun q : Cell × List Cell => q.1 :: q.2)
        = Prod.snd := by funext q; rfl
    rw [he, List.map_snd_zip _ _ (le_of_eq hl.symm)]
  unfold Reader.to_csv read_csv DataFrame.setIndex DataFrame.cellAt
  simp only [Option.getD_some]
  rw [if_pos (by simp)]
  simp only [List.indexOf_cons_self, List.eraseIdx_cons_zero]
  rw [hfst, hsnd]

lemma isnull_exchange (K : Nat) :
    ∀ (rows : List (List Cell)), (∀ r ∈ rows, r.length = K) →
      ((List.range K).map
          (fun i => (rows.filter (fun r => r.getD i Cell.na == Cell.na)).length)).sum
        = (rows.map (fun r => r.countP (fun x => x == Cell.na))).sum
  | [], _ => by simp
  | r :: rows, h => by
      have hr : r.length = K := h r (List.mem_cons_self r rows)
      have ih := isnull_exchange K rows (fun s hs => h s (List.mem_cons_of_mem r hs))
      calc ((List.range K).map
              (fun i => ((r :: rows).filter (fun s => s.getD i Cell.na == Cell.na)).length)).sum
          = ((List.range K).map (fun i =>
              (if (r.getD i Cell.na == Cell.na) then 1 else 0)
                + (rows.filter (fun s => s.getD i Cell.na == Cell.na)).length)).sum := by
            refine congrArg List.sum (List.map_congr_left (fun i _ => ?_))
            rw [List.filter_cons]
            split <;> simp [Nat.add_comm]
        _ = ((List.range K).map
                (fun i => if (r.getD i Cell.na == Cell.na) then 1 else 0)).sum
              + ((List.range K).map
                  (fun i => (rows.filter (fun s => s.getD i Cell.na == Cell.na)).length)).sum :=
            sum_map_add _ _ _
        _ = r.countP (fun x => x == Cell.na)
              + (rows.map (fun s => s.countP (fun x => x == Cell.na))).sum := by
            rw [ih, ← hr, sum_range_getD_countP (fun x => x == Cell.na) Cell.na r]
        _ = ((r :: rows).map (fun s => s.countP (fun x => x == Cell.na))).sum := by
            simp

namespace GenomicFeatures

lemma cleanup_indexName (df : DataFrame) : (cleanup df).indexName = df.indexName := rfl

lemma cleanup_index (df : DataFrame) : (cleanup df).index = df.index := rfl

lemma mem_viewCols {df : DataFrame} {c : String} :
    c ∈ viewCols df ↔ c ∈ df.columns ∧ (c ≠ col_tissue ∧ c ≠ col_msi ∧ c ≠ col_sample) := by
  simp [viewCols, List.mem_filter, not_or]

lemma mem_cleanup_columns {df : DataFrame} {c : String} :
    c ∈ (cleanup df).columns ↔ c ∈ df.columns ∧ c ∉ todrop df := by
  simp [cleanup, DataFrame.projCols, List.mem_filter]

lemma special_not_mem_todrop {df : DataFrame} {c : String}
    (hc : c = col_tissue ∨ c = col_msi ∨ c = col_sample) : c ∉ todrop df := by
  intro h
  rcases List.mem_filter.mp h with ⟨hview, _⟩
  rcases mem_viewCols.mp hview with ⟨_, h1, h2, h3⟩
  rcases hc with e | e | e
  · exact h1 e
  · exact h2 e
  · exact h3 e

lemma special_mem_cleanup {df : DataFrame} {c : String} (hmem : c ∈ df.columns)
    (hc : c = col_tissue ∨ c = col_msi ∨ c = col_sample) : c ∈ (cleanup df).columns :=
  mem_cleanup_columns.mpr ⟨hmem, special_not_mem_todrop hc⟩

lemma colSum_pos_of_mem_cleanup {df : DataFrame} {c : String}
    (h : c ∈ (cleanup df).columns)
    (hns : c ≠ col_tissue ∧ c ≠ col_msi ∧ c ≠ col_sample) : 0 < colSum df c := by
  rcases mem_cleanup_columns.mp h with ⟨hmem, hdrop⟩
  by_contra hle
  exact hdrop (List.mem_filter.mpr ⟨mem_viewCols.mpr ⟨hmem, hns⟩, by
    simpa using Int.not_lt.mp hle⟩)

lemma finalize_none_of_missing (d : DataFrame)
    (h : col_tissue ∉ d.columns ∨ col_sample ∉ d.columns ∨ col_msi ∉ d.columns) :
    finalize d = none := by
  unfold finalize
  rw [if_neg]
  intro hcond
  have key : ∀ c : String,
      c ∈ (d.projCols (d.columns.filter (fun x => !(startsW x "Drug_")))).columns →
        c ∈ d.columns := by
    intro c hcmem
    rw [projCols_columns] at hcmem
    exact (List.mem_filter.mp hcmem).1
  simp only [Bool.and_eq_true, List.elem_iff] at hcond
  rcases h with h | h | h
  · exact h (key _ hcond.1.1)
  · exact h (key _ hcond.1.2)
  · exact h (key _ hcond.2)

lemma finalize_some_of_present (d : DataFrame) (ht : col_tissue ∈ d.columns)
    (hs : col_sample ∈ d.columns) (hm : col_msi ∈ d.columns) :
    finalize d = some (d.projCols (d.columns.filter (fun x => !(startsW x "Drug_"))))
      ∧ col_tissue ∈ d.columns.filter (fun x => !(startsW x "Drug_"))
      ∧ col_sample ∈ d.columns.filter (fun x => !(startsW x "Drug_"))
      ∧ col_msi ∈ d.columns.filter (fun x => !(startsW x "Drug_")) := by
  have h1 : col_tissue ∈ d.columns.filter (fun x => !(startsW x "Drug_")) :=
    List.mem_filter.mpr ⟨ht, by decide⟩
  have h2 : col_sample ∈ d.columns.filter (fun x => !(startsW x "Drug_")) :=
    List.mem_filter.mpr ⟨hs, by decide⟩
  have h3 : col_msi ∈ d.columns.filter (fun x => !(startsW x "Drug_")) :=
    List.mem_filter.mpr ⟨hm, by decide⟩
  refine ⟨?_, h1, h2, h3⟩
  unfold finalize
  rw [if_pos (by simp [projCols_columns, h1, h2, h3])]

lemma colValues_cleanup {df : DataFrame} {c : String} (hc : c ∈ (cleanup df).columns) :
    (cleanup df).colValues c = df.colValues c := by
  unfold cleanup
  exact colValues_projCols df _ c hc

lemma cleanup_filter_spec (g : DataFrame) (p : List Cell → Bool)
    (ht : col_tissue ∈ g.columns) (hs : col_sample ∈ g.columns) (hm : col_msi ∈ g.columns) :
    (col_tissue ∈ (cleanup (g.filterRows p)).columns
      ∧ col_sample ∈ (cleanup (g.filterRows p)).columns
      ∧ col_msi ∈ (cleanup (g.filterRows p)).columns)
    ∧ ∀ c ∈ (cleanup (g.filterRows p)).columns,
        c ≠ col_tissue ∧ c ≠ col_sample ∧ c ≠ col_msi →
          ∃ x ∈ (cleanup (g.filterRows p)).colValues c, x ≠ Cell.num 0 := by
  have hcols : (g.filterRows p).columns = g.columns := filterRows_columns g p
  constructor
  · exact ⟨special_mem_cleanup (hcols ▸ ht) (Or.inl rfl),
      special_mem_cleanup (hcols ▸ hs) (Or.inr (Or.inr rfl)),
      special_mem_cleanup (hcols ▸ hm) (Or.inr (Or.inl rfl))⟩
  · intro c hc hne
    have hpos : 0 < (((g.filterRows p).colValues c).map Cell.toInt).sum :=
      colSum_pos_of_mem_cleanup hc ⟨hne.1, hne.2.2, hne.2.1⟩
    obtain ⟨y, hy, hypos⟩ := exists_pos_of_sum_pos _ hpos
    obtain ⟨x, hx, hxy⟩ := List.mem_map.mp hy
    refine ⟨x, ?_, ?_⟩
    · rw [colValues_cleanup hc]
      exact hx
    · intro e
      rw [e] at hxy
      simp only [Cell.toInt] at hxy
      omega

end GenomicFeatures

end FrameLemmas

/-- Claim C2: for every input file whose header lacks the column
`COSMIC ID`, constructing `IC50` from that file raises (a `KeyError` in
the column selection), and constructing `GenomicFeatures` from that file
raises (an assertion failure); construction never succeeds silently
without that column. -/
theorem missing_cosmic_id_raises (f : CsvFile) (h : "COSMIC ID" ∉ f.header) :
    IC50.fromInput (.file f) = none ∧ GenomicFeatures.fromInput (.file f) = none := by
  have hp : "COSMIC ID" ∉ (read_csv f).columns := h
  constructor
  · show IC50.fromFile f = none
    simp [IC50.fromFile, DataFrame.selectCols, hp]
  · simp [GenomicFeatures.fromInput, hp]

/-- Witness for C2 at a concrete file lacking `COSMIC ID`. -/
theorem missing_cosmic_id_raises_witness :
    ("COSMIC ID" ∉ (⟨["Drug_1_IC50"], [[Cell.num 1]]⟩ : CsvFile).header)
      ∧ (IC50.fromInput (.file ⟨["Drug_1_IC50"], [[Cell.num 1]]⟩) = none
          ∧ GenomicFeatures.fromInput (.file ⟨["Drug_1_IC50"], [[Cell.num 1]]⟩) = none) :=
  ⟨by decide, missing_cosmic_id_raises ⟨["Drug_1_IC50"], [[Cell.num 1]]⟩ (by decide)⟩

/-- Claim C1 (counterexample): an IC50 object constructed directly from a
dataframe with a non-`Drug` column (which the constructor accepts and
stores verbatim) breaks the round trip: re-reading the written file
through the IC50 constructor silently drops that column, so the re-read
frame does not have the same columns. -/
theorem ic50_roundtrip_counterexample :
    IC50.fromInput (.dataframe ⟨some "COSMIC ID", [Cell.num 1], ["Foo"], [[Cell.num 2]]⟩)
        = some ⟨some "COSMIC ID", [Cell.num 1], ["Foo"], [[Cell.num 2]]⟩
      ∧ (IC50.fromInput (.file (Reader.to_csv
            ⟨some "COSMIC ID", [Cell.num 1], ["Foo"], [[Cell.num 2]]⟩))).map
            DataFrame.columns
          = some [] := by
  decide

/-- Claim C1 (amended): the round trip holds for every IC50 object whose
frame has the shape produced by file construction — index named
`COSMIC ID`, pairwise-distinct columns all starting with `Drug`, and
matching index/row lengths — and likewise for every GenomicFeatures
object whose frame has index named `COSMIC ID` and pairwise-distinct
columns that include the three compulsory ones, exclude `COSMIC ID` and
contain no `Drug_`-prefixed column: writing with `to_csv` and re-reading
through the same class yields the same indexed content.  Objects
constructed directly from arbitrary dataframes can break the round
trip. -/
theorem to_csv_roundtrip (d g : DataFrame)
    (hdn : d.indexName = some "COSMIC ID")
    (hdc : ∀ c ∈ d.columns, startsW c "Drug" = true)
    (hdnd : d.columns.Nodup)
    (hdl : d.index.length = d.rows.length)
    (hdr : ∀ r ∈ d.rows, r.length = d.columns.length)
    (hgn : g.indexName = some "COSMIC ID")
    (_hgcos : "COSMIC ID" ∉ g.columns)
    (hgd : ∀ c ∈ g.columns, startsW c "Drug_" = false)
    (hgt : col_tissue ∈ g.columns) (hgs : col_sample ∈ g.columns)
    (hgm : col_msi ∈ g.columns)
    (hgnd : g.columns.Nodup)
    (hgl : g.index.length = g.rows.length)
    (hgr : ∀ r ∈ g.rows, r.length = g.columns.length) :
    IC50.fromInput (.file (Reader.to_csv d)) = some d
      ∧ GenomicFeatures.fromInput (.file (Reader.to_csv g)) = some g := by
  constructor
  · have hdcos : "COSMIC ID" ∉ d.columns := fun hmem =>
      absurd (hdc _ hmem) (by decide)
    have hcolsEq : (read_csv (Reader.to_csv d)).columns = "COSMIC ID" :: d.columns := by
      show (Reader.to_csv d).header = _
      unfold Reader.to_csv
      rw [hdn]
      rfl
    have hfilt : (read_csv (Reader.to_csv d)).columns.filter (fun x => startsW x "Drug")
        = d.columns := by
      rw [hcolsEq, List.filter_cons, if_neg (by decide)]
      exact List.filter_eq_self.mpr hdc
    have hnd : (read_csv (Reader.to_csv d)).columns.Nodup := by
      rw [hcolsEq]
      exact List.nodup_cons.mpr ⟨hdcos, hdnd⟩
    have hrowswf : ∀ r ∈ (read_csv (Reader.to_csv d)).rows,
        r.length = (read_csv (Reader.to_csv d)).columns.length := by
      intro r hr
      have hr' : r ∈ (d.index.zip d.rows).map (fun q => q.1 :: q.2) := hr
      obtain ⟨q, hq, rfl⟩ := List.mem_map.mp hr'
      have hq2 := (List.of_mem_zip hq).2
      rw [hcolsEq]
      show (q.1 :: q.2).length = ("COSMIC ID" :: d.columns).length
      simp [hdr q.2 hq2]
    have hsel : (read_csv (Reader.to_csv d)).selectCols
        ((read_csv (Reader.to_csv d)).columns) = some (read_csv (Reader.to_csv d)) :=
      selectCols_self _ hnd hrowswf
    have hfrom : IC50.fromFile (Reader.to_csv d)
        = (read_csv (Reader.to_csv d)).setIndex "COSMIC ID" := by
      show (match (read_csv (Reader.to_csv d)).selectCols
          ("COSMIC ID" :: (read_csv (Reader.to_csv d)).columns.filter
            (fun x => startsW x "Drug")) with
        | some x => x.setIndex "COSMIC ID"
        | none => none) = _
      rw [hfilt, ← hcolsEq, hsel]
    have heta : (⟨some "COSMIC ID", d.index, d.columns, d.rows⟩ : DataFrame) = d := by
      rw [← hdn]
    show IC50.fromFile (Reader.to_csv d) = some d
    rw [hfrom, setIndex_read_to_csv d hdn hdl, heta]
  · have hcontains : ((read_csv (Reader.to_csv g)).columns.contains "COSMIC ID") = true := by
      have hgcolsEq : (read_csv (Reader.to_csv g)).columns = "COSMIC ID" :: g.columns := by
        show (Reader.to_csv g).header = _
        unfold Reader.to_csv
        rw [hgn]
        rfl
      rw [hgcolsEq]
      simp
    simp only [GenomicFeatures.fromInput]
    rw [if_pos hcontains, setIndex_read_to_csv g hgn hgl]
    show GenomicFeatures.finalize ⟨some "COSMIC ID", g.index, g.columns, g.rows⟩ = some g
    obtain ⟨hfin, -, -, -⟩ := GenomicFeatures.finalize_some_of_present
        (⟨some "COSMIC ID", g.index, g.columns, g.rows⟩ : DataFrame) hgt hgs hgm
    rw [hfin]
    have hfilt2 : ((⟨some "COSMIC ID", g.index, g.columns, g.rows⟩ : DataFrame).columns.filter
        (fun x => !(startsW x "Drug_"))) = g.columns :=
      List.filter_eq_self.mpr (fun c hc => by simp [hgd c hc])
    have hproj : (⟨some "COSMIC ID", g.index, g.columns, g.rows⟩ : DataFrame).projCols
        ((⟨some "COSMIC ID", g.index, g.columns, g.rows⟩ : DataFrame).columns.filter
          (fun x => !(startsW x "Drug_")))
        = ⟨some "COSMIC ID", g.index, g.columns, g.rows⟩ := by
      rw [hfilt2]
      exact projCols_self _ hgnd hgr
    rw [hproj]
    have hgeta : (⟨some "COSMIC ID", g.index, g.columns, g.rows⟩ : DataFrame) = g := by
      rw [← hgn]
    rw [hgeta]

/-- Witness for C1 at concrete file-shaped IC50 and GenomicFeatures
frames. -/
theorem to_csv_roundtrip_witness :
    (icEx.indexName = some "COSMIC ID"
      ∧ (∀ c ∈ icEx.columns, startsW c "Drug" = true)
      ∧ icEx.columns.Nodup
      ∧ icEx.index.length = icEx.rows.length
      ∧ (∀ r ∈ icEx.rows, r.length = icEx.columns.length)
      ∧ gfEx.indexName = some "COSMIC ID"
      ∧ "COSMIC ID" ∉ gfEx.columns
      ∧ (∀ c ∈ gfEx.columns, startsW c "Drug_" = false)
      ∧ col_tissue ∈ gfEx.columns ∧ col_sample ∈ gfEx.columns ∧ col_msi ∈ gfEx.columns
      ∧ gfEx.columns.Nodup
      ∧ gfEx.index.length = gfEx.rows.length
      ∧ (∀ r ∈ gfEx.rows, r.length = gfEx.columns.length))
    ∧ (IC50.fromInput (.file (Reader.to_csv icEx)) = some icEx
        ∧ GenomicFeatures.fromInput (.file (Reader.to_csv gfEx)) = some gfEx) :=
  ⟨⟨by decide, by decide, by decide, by decide, by decide, by decide, by decide,
    by decide, by decide, by decide, by decide, by decide, by decide, by decide⟩,
   to_csv_roundtrip icEx gfEx (by decide) (by decide) (by decide) (by decide) (by decide)
     (by decide) (by decide) (by decide) (by decide) (by decide) (by decide) (by decide)
     (by decide) (by decide)⟩

/-- Claim C3 (counterexample): a file carrying the three compulsory
columns but no `COSMIC ID` column still fails construction (the
`COSMIC ID` assertion fires first), refuting the claim that the presence
of the three columns suffices for construction to succeed. -/
theorem gf_three_columns_without_cosmic_rejected :
    GenomicFeatures.fromInput (.file ⟨[col_tissue, col_sample, col_msi],
      [[Cell.str "lung", Cell.str "a", Cell.num 0]]⟩) = none := by
  decide

/-- Claim C3 (amended): for every GenomicFeatures constructor input, if
any of the columns `Tissue Factor Value`, `Sample Name` or
`MS-instability Factor Value` is missing after removal of the `Drug_`
columns (which can never remove those three), construction raises an
assertion failure; when all three are present and, for file input, the
file also has a `COSMIC ID` column, construction succeeds and all three
columns are present in the resulting frame. -/
theorem gf_required_columns_spec :
    (∀ f : CsvFile,
        (col_tissue ∉ f.header ∨ col_sample ∉ f.header ∨ col_msi ∉ f.header) →
          GenomicFeatures.fromInput (.file f) = none)
      ∧ (∀ d : DataFrame,
          (col_tissue ∉ d.columns ∨ col_sample ∉ d.columns ∨ col_msi ∉ d.columns) →
            GenomicFeatures.fromInput (.reader d) = none
              ∧ GenomicFeatures.fromInput (.duck d) = none
              ∧ GenomicFeatures.fromInput (.dataframe d) = none)
      ∧ (∀ f : CsvFile, "COSMIC ID" ∈ f.header → col_tissue ∈ f.header →
          col_sample ∈ f.header → col_msi ∈ f.header →
            ∃ d, GenomicFeatures.fromInput (.file f) = some d
              ∧ col_tissue ∈ d.columns ∧ col_sample ∈ d.columns ∧ col_msi ∈ d.columns)
      ∧ (∀ d0 : DataFrame, col_tissue ∈ d0.columns → col_sample ∈ d0.columns →
          col_msi ∈ d0.columns →
            ∃ d, GenomicFeatures.fromInput (.reader d0) = some d
              ∧ GenomicFeatures.fromInput (.duck d0) = some d
              ∧ GenomicFeatures.fromInput (.dataframe d0) = some d
              ∧ col_tissue ∈ d.columns ∧ col_sample ∈ d.columns ∧ col_msi ∈ d.columns) := by
  refine ⟨?_, ?_, ?_, ?_⟩
  · intro f hmiss
    by_cases hcos : "COSMIC ID" ∈ (read_csv f).columns
    · simp only [GenomicFeatures.fromInput]
      rw [if_pos (by simpa using hcos), setIndex_of_mem _ _ hcos]
      show GenomicFeatures.finalize _ = none
      apply GenomicFeatures.finalize_none_of_missing
      rcases hmiss with hm | hm | hm
      · exact Or.inl (fun hmem => hm (List.mem_of_mem_erase hmem))
      · exact Or.inr (Or.inl (fun hmem => hm (List.mem_of_mem_erase hmem)))
      · exact Or.inr (Or.inr (fun hmem => hm (List.mem_of_mem_erase hmem)))
    · simp [GenomicFeatures.fromInput, hcos]
  · intro d hmiss
    exact ⟨GenomicFeatures.finalize_none_of_missing d hmiss,
      GenomicFeatures.finalize_none_of_missing d hmiss,
      GenomicFeatures.finalize_none_of_missing d hmiss⟩
  · intro f hcosh ht hs hm
    have hcos' : "COSMIC ID" ∈ (read_csv f).columns := hcosh
    have hte : col_tissue ∈ ((read_csv f).columns.erase "COSMIC ID") :=
      (List.mem_erase_of_ne (by decide)).mpr ht
    have hse : col_sample ∈ ((read_csv f).columns.erase "COSMIC ID") :=
      (List.mem_erase_of_ne (by decide)).mpr hs
    have hme : col_msi ∈ ((read_csv f).columns.erase "COSMIC ID") :=
      (List.mem_erase_of_ne (by decide)).mpr hm
    obtain ⟨hfin, h1, h2, h3⟩ :=
      GenomicFeatures.finalize_some_of_present
        ⟨some "COSMIC ID", (read_csv f).rows.map (fun r => (read_csv f).cellAt r "COSMIC ID"),
          (read_csv f).columns.erase "COSMIC ID",
          (read_csv f).rows.map
            (fun r => r.eraseIdx ((read_csv f).columns.indexOf "COSMIC ID"))⟩
        hte hse hme
    have heq : GenomicFeatures.fromInput (.file f)
        = GenomicFeatures.finalize
            ⟨some "COSMIC ID",
              (read_csv f).rows.map (fun r => (read_csv f).cellAt r "COSMIC ID"),
              (read_csv f).columns.erase "COSMIC ID",
              (read_csv f).rows.map
                (fun r => r.eraseIdx ((read_csv f).columns.indexOf "COSMIC ID"))⟩ := by
      simp only [GenomicFeatures.fromInput]
      rw [if_pos (by simpa using hcos'), setIndex_of_mem _ _ hcos']
    exact ⟨_, heq.trans hfin, h1, h2, h3⟩
  · intro d0 ht hs hm
    obtain ⟨hfin, h1, h2, h3⟩ := GenomicFeatures.finalize_some_of_present d0 ht hs hm
    exact ⟨_, hfin, hfin, hfin, h1, h2, h3⟩

/-- Witness for C3 at two concrete files: one missing the tissue column
(construction fails) and one with all compulsory columns (construction
succeeds and keeps them). -/
theorem gf_required_columns_spec_witness :
    ((col_tissue ∉ noTissueFile.header ∨ col_sample ∉ noTissueFile.header
        ∨ col_msi ∉ noTissueFile.header)
      ∧ GenomicFeatures.fromInput (.file noTissueFile) = none)
    ∧ (("COSMIC ID" ∈ gfFileEx.header ∧ col_tissue ∈ gfFileEx.header
        ∧ col_sample ∈ gfFileEx.header ∧ col_msi ∈ gfFileEx.header)
      ∧ ∃ d, GenomicFeatures.fromInput (.file gfFileEx) = some d
          ∧ col_tissue ∈ d.columns ∧ col_sample ∈ d.columns ∧ col_msi ∈ d.columns) :=
  ⟨⟨by decide, gf_required_columns_spec.1 noTissueFile (by decide)⟩,
   ⟨⟨by decide, by decide, by decide, by decide⟩,
     gf_required_columns_spec.2.2.1 gfFileEx (by decide) (by decide) (by decide) (by decide)⟩⟩

/-- Claim C4 (counterexample): the claim fails for `GenomicFeatures`. An
object that is neither a filename string, nor a `Reader` instance, nor a
dataframe, but is duck-typed with a dataframe-valued `df` attribute, is
accepted by the `GenomicFeatures` constructor instead of raising. -/
theorem gf_duck_typed_input_accepted :
    GenomicFeatures.fromInput (GFInput.duck gfEx) ≠ none := by
  decide

/-- Claim C4 (amended): the `IC50` constructor raises on any input that is
not a filename string, an `IC50` instance or a dataframe, and the
`GenomicFeatures` constructor raises on any input that is not a filename
string, a dataframe, or an object exposing a dataframe-valued `df`
attribute. -/
theorem unsupported_input_raises :
    IC50.fromInput IC50Input.other = none
      ∧ GenomicFeatures.fromInput GFInput.other = none :=
  ⟨rfl, rfl⟩

/-- Claim C9: constructing an IC50 from an existing IC50 instance or from
a dataframe copies the data (`.copy()` allocates a fresh object holding
the same contents), so any subsequent replacement of the new object's
dataframe leaves the source dataframe unchanged. -/
theorem ic50_copy_no_alias (s : Store) (src : Nat) (h : src < s.length) :
    (IC50.initFromRef s src).2 ≠ src
      ∧ (IC50.initFromRef s src).1.read (IC50.initFromRef s src).2 = s.read src
      ∧ ∀ d : DataFrame,
          ((IC50.initFromRef s src).1.write (IC50.initFromRef s src).2 d).read src
            = s.read src := by
  refine ⟨(Nat.ne_of_lt h).symm, ?_, ?_⟩
  · show (s ++ [s.read src]).getD s.length default = s.read src
    rw [List.getD_append_right _ _ _ _ (le_refl s.length)]
    simp
  · intro d
    show ((s ++ [s.read src]).set s.length d).getD src default = s.getD src default
    rw [List.getD_eq_getElem?_getD, List.getElem?_set_ne ((Nat.ne_of_lt h).symm),
      ← List.getD_eq_getElem?_getD, List.getD_append _ _ _ _ h]

/-- Claim C5: after `drop_tissue_in(ts)` the rows of the frame are exactly
the previous rows whose `Tissue Factor Value` is not in `ts`, in their
original order (a single tissue given as a string being treated as a
one-element list): the surviving index entries, and the surviving cell
values of every remaining column, are those of exactly the non-matching
rows. -/
theorem drop_tissue_in_spec (g : DataFrame) (ts : TissueArg) :
    (GenomicFeatures.drop_tissue_in g ts).index
        = ((g.index.zip g.rows).filter
            (fun q => !(g.cellAt q.2 col_tissue).isinStr ts.toList)).map Prod.fst
      ∧ ∀ c ∈ (GenomicFeatures.drop_tissue_in g ts).columns,
          (GenomicFeatures.drop_tissue_in g ts).colValues c
            = ((g.index.zip g.rows).filter
                (fun q => !(g.cellAt q.2 col_tissue).isinStr ts.toList)).map
                (fun q => g.cellAt q.2 c) := by
  constructor
  · rfl
  · intro c hc
    show (GenomicFeatures.cleanup (g.filterRows
        (fun r => !(g.cellAt r col_tissue).isinStr ts.toList))).colValues c = _
    rw [GenomicFeatures.colValues_cleanup hc, colValues_filterRows]

/-- Witness for C5 at a concrete frame, column and tissue. -/
theorem drop_tissue_in_spec_witness :
    col_tissue ∈ (GenomicFeatures.drop_tissue_in gfEx (TissueArg.one "lung")).columns
      ∧ (GenomicFeatures.drop_tissue_in gfEx (TissueArg.one "lung")).colValues col_tissue
          = ((gfEx.index.zip gfEx.rows).filter
              (fun q => !(gfEx.cellAt q.2 col_tissue).isinStr (TissueArg.one "lung").toList)).map
              (fun q => gfEx.cellAt q.2 col_tissue) :=
  ⟨by decide, (drop_tissue_in_spec gfEx (TissueArg.one "lung")).2 col_tissue (by decide)⟩

/-- Claim C6: after `keep_tissue_in(ts)` the rows of the frame are exactly
the previous rows whose `Tissue Factor Value` is in `ts`, in their
original order (a single tissue given as a string being treated as a
one-element list): the surviving index entries, and the surviving cell
values of every remaining column, are those of exactly the matching
rows. -/
theorem keep_tissue_in_spec (g : DataFrame) (ts : TissueArg) :
    (GenomicFeatures.keep_tissue_in g ts).index
        = ((g.index.zip g.rows).filter
            (fun q => (g.cellAt q.2 col_tissue).isinStr ts.toList)).map Prod.fst
      ∧ ∀ c ∈ (GenomicFeatures.keep_tissue_in g ts).columns,
          (GenomicFeatures.keep_tissue_in g ts).colValues c
            = ((g.index.zip g.rows).filter
                (fun q => (g.cellAt q.2 col_tissue).isinStr ts.toList)).map
                (fun q => g.cellAt q.2 c) := by
  constructor
  · rfl
  · intro c hc
    show (GenomicFeatures.cleanup (g.filterRows
        (fun r => (g.cellAt r col_tissue).isinStr ts.toList))).colValues c = _
    rw [GenomicFeatures.colValues_cleanup hc, colValues_filterRows]

/-- Witness for C6 at a concrete frame, column and tissue list. -/
theorem keep_tissue_in_spec_witness :
    col_sample ∈ (GenomicFeatures.keep_tissue_in gfEx (TissueArg.many ["lung", "skin"])).columns
      ∧ (GenomicFeatures.keep_tissue_in gfEx (TissueArg.many ["lung", "skin"])).colValues
            col_sample
          = ((gfEx.index.zip gfEx.rows).filter
              (fun q => (gfEx.cellAt q.2 col_tissue).isinStr
                (TissueArg.many ["lung", "skin"]).toList)).map
              (fun q => gfEx.cellAt q.2 col_sample) :=
  ⟨by decide,
    (keep_tissue_in_spec gfEx (TissueArg.many ["lung", "skin"])).2 col_sample (by decide)⟩

/-- Claim C7: for frames carrying the three special columns whose feature
columns (every other column) hold nonnegative numeric values, after
`drop_tissue_in` or `keep_tissue_in` every remaining column other than
the tissue, sample and MSI columns has at least one nonzero entry (the
contrapositive of this is that all-zero feature columns are dropped),
while those three special columns are always retained. -/
theorem tissue_filter_cleanup_spec (g : DataFrame) (ts : TissueArg)
    (_hnum : ∀ c ∈ g.columns, c ≠ col_tissue ∧ c ≠ col_sample ∧ c ≠ col_msi →
      ∀ x ∈ g.colValues c, x.isNonnegNum = true)
    (ht : col_tissue ∈ g.columns) (hs : col_sample ∈ g.columns)
    (hm : col_msi ∈ g.columns) :
    ((col_tissue ∈ (GenomicFeatures.drop_tissue_in g ts).columns
        ∧ col_sample ∈ (GenomicFeatures.drop_tissue_in g ts).columns
        ∧ col_msi ∈ (GenomicFeatures.drop_tissue_in g ts).columns)
      ∧ ∀ c ∈ (GenomicFeatures.drop_tissue_in g ts).columns,
          c ≠ col_tissue ∧ c ≠ col_sample ∧ c ≠ col_msi →
            ∃ x ∈ (GenomicFeatures.drop_tissue_in g ts).colValues c, x ≠ Cell.num 0)
    ∧ ((col_tissue ∈ (GenomicFeatures.keep_tissue_in g ts).columns
        ∧ col_sample ∈ (GenomicFeatures.keep_tissue_in g ts).columns
        ∧ col_msi ∈ (GenomicFeatures.keep_tissue_in g ts).columns)
      ∧ ∀ c ∈ (GenomicFeatures.keep_tissue_in g ts).columns,
          c ≠ col_tissue ∧ c ≠ col_sample ∧ c ≠ col_msi →
            ∃ x ∈ (GenomicFeatures.keep_tissue_in g ts).colValues c, x ≠ Cell.num 0) := by
  constructor
  · exact GenomicFeatures.cleanup_filter_spec g _ ht hs hm
  · exact GenomicFeatures.cleanup_filter_spec g _ ht hs hm

/-- Witness for C7 at a concrete frame and tissue. -/
theorem tissue_filter_cleanup_spec_witness :
    ((∀ c ∈ gfEx.columns, c ≠ col_tissue ∧ c ≠ col_sample ∧ c ≠ col_msi →
        ∀ x ∈ gfEx.colValues c, x.isNonnegNum = true)
      ∧ col_tissue ∈ gfEx.columns ∧ col_sample ∈ gfEx.columns ∧ col_msi ∈ gfEx.columns)
    ∧ (((col_tissue ∈ (GenomicFeatures.drop_tissue_in gfEx (TissueArg.one "skin")).columns
        ∧ col_sample ∈ (GenomicFeatures.drop_tissue_in gfEx (TissueArg.one "skin")).columns
        ∧ col_msi ∈ (GenomicFeatures.drop_tissue_in gfEx (TissueArg.one "skin")).columns)
      ∧ ∀ c ∈ (GenomicFeatures.drop_tissue_in gfEx (TissueArg.one "skin")).columns,
          c ≠ col_tissue ∧ c ≠ col_sample ∧ c ≠ col_msi →
            ∃ x ∈ (GenomicFeatures.drop_tissue_in gfEx (TissueArg.one "skin")).colValues c,
              x ≠ Cell.num 0)
    ∧ ((col_tissue ∈ (GenomicFeatures.keep_tissue_in gfEx (TissueArg.one "skin")).columns
        ∧ col_sample ∈ (GenomicFeatures.keep_tissue_in gfEx (TissueArg.one "skin")).columns
        ∧ col_msi ∈ (GenomicFeatures.keep_tissue_in gfEx (TissueArg.one "skin")).columns)
      ∧ ∀ c ∈ (GenomicFeatures.keep_tissue_in gfEx (TissueArg.one "skin")).columns,
          c ≠ col_tissue ∧ c ≠ col_sample ∧ c ≠ col_msi →
            ∃ x ∈ (GenomicFeatures.keep_tissue_in gfEx (TissueArg.one "skin")).colValues c,
              x ≠ Cell.num 0)) :=
  ⟨⟨by decide, by decide, by decide, by decide⟩,
    tissue_filter_cleanup_spec gfEx (TissueArg.one "skin") (by decide)
      (by decide) (by decide) (by decide)⟩

/-- Claim C8: for an IC50 frame with at least one drug column and at
least one row (and rows matching the column count), the NA percentage
printed by `__str__` equals the number of null cells divided by the
number of drug columns times the number of rows; the reported number of
drugs is the number of columns of the frame and the reported number of
cell lines is its number of rows. -/
theorem ic50_summary_spec (df : DataFrame) (_hcols : 0 < df.columns.length)
    (_hrows : 0 < df.rows.length)
    (hwf : ∀ r ∈ df.rows, r.length = df.columns.length) :
    IC50.nbDrugs df = df.columns.length
      ∧ IC50.nbCellLines df = df.rows.length
      ∧ IC50.naPercentage df
          = (df.nullCellCount : Rat)
              / ((df.columns.length * df.rows.length : Nat) : Rat) := by
  refine ⟨rfl, rfl, ?_⟩
  unfold IC50.naPercentage
  have hcount : IC50.isnullTotal df = df.nullCellCount := by
    unfold IC50.isnullTotal IC50.isnullColSums DataFrame.nullCellCount
    exact isnull_exchange df.columns.length df.rows hwf
  rw [hcount]
  rfl

/-- Witness for C8 at a concrete IC50 frame. -/
theorem ic50_summary_spec_witness :
    (0 < icEx.columns.length ∧ 0 < icEx.rows.length
        ∧ ∀ r ∈ icEx.rows, r.length = icEx.columns.length)
      ∧ (IC50.nbDrugs icEx = icEx.columns.length
          ∧ IC50.nbCellLines icEx = icEx.rows.length
          ∧ IC50.naPercentage icEx
              = (icEx.nullCellCount : Rat)
                  / ((icEx.columns.length * icEx.rows.length : Nat) : Rat)) :=
  ⟨⟨by decide, by decide, by decide⟩,
    ic50_summary_spec icEx (by decide) (by decide) (by decide)⟩

/-- Claim C10: for every input file containing a `COSMIC ID` column, the
IC50 object constructed from it has `COSMIC ID` as its index and its
columns are exactly the input columns whose name starts with `Drug` (not
only those matching `Drug_XX_IC50`), in their original input order; every
other input column is absent from the frame. -/
theorem ic50_from_file_columns_spec (f : CsvFile) (h : "COSMIC ID" ∈ f.header) :
    ∃ d, IC50.fromInput (.file f) = some d
      ∧ d.indexName = some "COSMIC ID"
      ∧ d.index = (read_csv f).colValues "COSMIC ID"
      ∧ IC50.drugIds d = f.header.filter (fun x => startsW x "Drug")
      ∧ ∀ c ∈ f.header, startsW c "Drug" = false → c ∉ d.columns := by
  have hsel : (read_csv f).selectCols
      ("COSMIC ID" :: (read_csv f).columns.filter (fun x => startsW x "Drug"))
      = some ((read_csv f).projCols
          ("COSMIC ID" :: (read_csv f).columns.filter (fun x => startsW x "Drug"))) := by
    unfold DataFrame.selectCols
    rw [if_pos]
    refine List.all_eq_true.mpr (fun c hc => ?_)
    rcases List.mem_cons.mp hc with e | hf
    · subst e
      simpa using h
    · simpa using (List.mem_filter.mp hf).1
  have hmem : "COSMIC ID" ∈ ((read_csv f).projCols
      ("COSMIC ID" :: (read_csv f).columns.filter (fun x => startsW x "Drug"))).columns :=
    List.mem_cons_self _ _
  have hset := setIndex_of_mem ((read_csv f).projCols
      ("COSMIC ID" :: (read_csv f).columns.filter (fun x => startsW x "Drug")))
      "COSMIC ID" hmem
  have hfrom : IC50.fromFile f
      = ((read_csv f).projCols
          ("COSMIC ID" :: (read_csv f).columns.filter (fun x => startsW x "Drug"))).setIndex
          "COSMIC ID" := by
    show (match (read_csv f).selectCols
        ("COSMIC ID" :: (read_csv f).columns.filter (fun x => startsW x "Drug")) with
      | some d => d.setIndex "COSMIC ID"
      | none => none) = _
    rw [hsel]
  refine ⟨_, hfrom.trans hset, rfl, ?_, ?_, ?_⟩
  · exact colValues_projCols (read_csv f) _ "COSMIC ID" (List.mem_cons_self _ _)
  · show ("COSMIC ID" :: (read_csv f).columns.filter
        (fun x => startsW x "Drug")).erase "COSMIC ID" = _
    rw [List.erase_cons_head]
    rfl
  · intro c hc hns hmem'
    have hmem2 : c ∈ ("COSMIC ID" :: (read_csv f).columns.filter
        (fun x => startsW x "Drug")).erase "COSMIC ID" := hmem'
    rw [List.erase_cons_head] at hmem2
    rw [(List.mem_filter.mp hmem2).2] at hns
    exact Bool.noConfusion hns

/-- Witness for C10 at a concrete file with a `Drugged` column. -/
theorem ic50_from_file_columns_spec_witness :
    ("COSMIC ID" ∈ fileEx.header)
      ∧ ∃ d, IC50.fromInput (.file fileEx) = some d
          ∧ d.indexName = some "COSMIC ID"
          ∧ d.index = (read_csv fileEx).colValues "COSMIC ID"
          ∧ IC50.drugIds d = fileEx.header.filter (fun x => startsW x "Drug")
          ∧ ∀ c ∈ fileEx.header, startsW c "Drug" = false → c ∉ d.columns :=
  ⟨by decide, ic50_from_file_columns_spec fileEx (by decide)⟩

/-- Witness for C9 at a concrete one-object store. -/
theorem ic50_copy_no_alias_witness :
    (0 < ([icEx] : Store).length)
      ∧ ((IC50.initFromRef [icEx] 0).2 ≠ 0
          ∧ (IC50.initFromRef [icEx] 0).1.read (IC50.initFromRef [icEx] 0).2
              = Store.read [icEx] 0
          ∧ ∀ d : DataFrame,
              ((IC50.initFromRef [icEx] 0).1.write (IC50.initFromRef [icEx] 0).2 d).read 0
                = Store.read [icEx] 0) :=
  ⟨by decide, ic50_copy_no_alias [icEx] 0 (by decide)⟩

end GDSCTools

section Scratch
open GDSCTools

example : (startsW "Tissue Factor Value" "Drug_") = false := by decide

example :
    IC50.fromInput (.file ⟨["COSMIC ID", "Drug_1_IC50", "Other"],
        [[Cell.num 1, Cell.num 5, Cell.str "x"]]⟩)
      = some ⟨some "COSMIC ID", [Cell.num 1], ["Drug_1_IC50"], [[Cell.num 5]]⟩ := by
  decide

example :
    GenomicFeatures.fromInput (.file ⟨["COSMIC ID", "Tissue Factor Value",
        "Sample Name", "MS-instability Factor Value", "Drug_1_IC50", "BRAF_mut"],
        [[Cell.num 1, Cell.str "lung", Cell.str "a", Cell.num 0, Cell.num 9, Cell.num 1],
         [Cell.num 2, Cell.str "skin", Cell.str "b", Cell.num 1, Cell.num 8, Cell.num 0]]⟩)
      = some ⟨some "COSMIC ID", [Cell.num 1, Cell.num 2],
          ["Tissue Factor Value", "Sample Name", "MS-instability Factor Value", "BRAF_mut"],
          [[Cell.str "lung", Cell.str "a", Cell.num 0, Cell.num 1],
           [Cell.str "skin", Cell.str "b", Cell.num 1, Cell.num 0]]⟩ := by
  decide

example :
    GenomicFeatures.drop_tissue_in
      ⟨some "COSMIC ID", [Cell.num 1, Cell.num 2],
        ["Tissue Factor Value", "Sample Name", "MS-instability Factor Value", "BRAF_mut"],
        [[Cell.str "lung", Cell.str "a", Cell.num 0, Cell.num 1],
         [Cell.str "skin", Cell.str "b", Cell.num 1, Cell.num 0]]⟩
      (.one "lung")
      = ⟨some "COSMIC ID", [Cell.num 2],
          ["Tissue Factor Value", "Sample Name", "MS-instability Factor Value"],
          [[Cell.str "skin", Cell.str "b", Cell.num 1]]⟩ := by
  decide

end Scratch
